import Mathlib

/-!
Verification of the audio resource manager of the "Imposter Syndrome Defeato"
repository (the AWS Polly text-to-speech client module).

The module under study keeps mutable module-level state: a circuit breaker
(`ttsErrorCount`, `lastErrorTime`), a client handle, an insertion-ordered set of
active audio elements, a FIFO backlog, and runtime-configurable audio settings.
We embed that state shallowly: each JavaScript function becomes a pure Lean
function from explicit state (plus environment inputs such as the current
clock reading, the remote call's outcome and the playback device's responses)
to the updated state together with an abstraction of what was logged.
Machine numbers are modelled with Nat / Int / Rat as appropriate; JavaScript
`Date.now()` readings are Int; texts are lists of UTF-16 units modelled as
`List Char`.
-/

namespace Polly

/-- JS whitespace for the purposes of `String.prototype.trim` (the common
code points; the source texts only involve the ASCII ones). -/
def isJsWhitespace (c : Char) : Bool :=
  c = ' ' || c = '\t' || c = '\n' || c = '\r' || c = '\x0b' || c = '\x0c'

/-- `text.trim()`: strip leading and trailing whitespace units. -/
def jsTrim (l : List Char) : List Char :=
  ((l.dropWhile isJsWhitespace).reverse.dropWhile isJsWhitespace).reverse

/-- `const MAX_ERROR_COUNT = 5` -/
def MAX_ERROR_COUNT : Nat := 5

/-- `const ERROR_RESET_TIME = 300000` (5 minutes in milliseconds) -/
def ERROR_RESET_TIME : Int := 300000

/-- The circuit-breaker part of the module state:
`let ttsErrorCount = 0; let lastErrorTime = null;`. -/
structure CircuitState where
  ttsErrorCount : Nat
  lastErrorTime : Option Int
  deriving Repr, DecidableEq

/-- JS truthiness of the `lastErrorTime` variable (a number or `null`):
`null` and `0` are falsy. -/
def timeTruthy : Option Int → Bool
  | none => false
  | some t => t ≠ 0

/-- `isTtsTemporarilyDisabled()`. Returns the boolean result together with
the (possibly reset) circuit state, since the function mutates the module
state when the cooldown has elapsed:

    if (ttsErrorCount < MAX_ERROR_COUNT) return false;
    const now = Date.now();
    if (lastErrorTime && (now - lastErrorTime) > ERROR_RESET_TIME) {
      ttsErrorCount = 0; lastErrorTime = null; return false;
    }
    return true;
-/
def isTtsTemporarilyDisabled (s : CircuitState) (now : Int) :
    Bool × CircuitState :=
  if s.ttsErrorCount < MAX_ERROR_COUNT then (false, s)
  else if timeTruthy s.lastErrorTime ∧
      now - (s.lastErrorTime.getD 0) > ERROR_RESET_TIME then
    (false, ⟨0, none⟩)
  else (true, s)

/-- `recordTtsError(errorType)`: `ttsErrorCount++; lastErrorTime = Date.now();` -/
def recordTtsError (s : CircuitState) (now : Int) : CircuitState :=
  { ttsErrorCount := s.ttsErrorCount + 1, lastErrorTime := some now }

/-- The status record returned by `getTtsStatus()` (the fields relevant to the
circuit; credentials/region are external configuration). In the JS object
literal the fields are evaluated in source order, so `errorCount` and
`lastErrorTime` are read before the `isTtsTemporarilyDisabled()` call mutates
the module state. -/
structure TtsStatus where
  clientInitialized : Bool
  errorCount : Nat
  lastErrorTime : Option Int
  temporarilyDisabled : Bool
  deriving Repr, DecidableEq

/-- `getTtsStatus()`: builds the status object and, through its call to
`isTtsTemporarilyDisabled()`, possibly resets the circuit state. -/
def getTtsStatus (clientPresent : Bool) (s : CircuitState) (now : Int) :
    TtsStatus × CircuitState :=
  let d := isTtsTemporarilyDisabled s now
  ({ clientInitialized := clientPresent
     errorCount := s.ttsErrorCount
     lastErrorTime := s.lastErrorTime
     temporarilyDisabled := d.1 }, d.2)

/-- The early-return decision taken by `speakText` before any network work. -/
inductive SpeakGate
  | invalidInput
  | noClient
  | circuitOpen
  | proceed
  deriving Repr, DecidableEq

/-- The gate section of `speakText(text)`: input validation, client check and
circuit-breaker check, in source order.  `proceed` means the call goes on to
the concurrency management / admission logic and, if admitted, the network
call; every other result returns without any network attempt. -/
def speakTextGate (text : List Char) (clientPresent : Bool)
    (s : CircuitState) (now : Int) : SpeakGate × CircuitState :=
  if (jsTrim text).length = 0 then (.invalidInput, s)
  else if ¬clientPresent then (.noClient, s)
  else
    let d := isTtsTemporarilyDisabled s now
    if d.1 then (.circuitOpen, d.2) else (.proceed, d.2)

/-- The mutable `audioSettings` record.  JS numbers; values are rationals. -/
structure AudioSettings where
  maxConcurrentAudio : ℚ
  defaultVolume : ℚ
  fadeOutDuration : ℚ
  queueProcessingDelay : ℚ
  deriving Repr, DecidableEq

/-- The module's initial `audioSettings`. -/
def defaultAudioSettings : AudioSettings :=
  { maxConcurrentAudio := 3
    defaultVolume := 7/10
    fadeOutDuration := 500
    queueProcessingDelay := 100 }

/-- A partial settings object, as accepted by `configureAudioSettings`:
absent fields leave the current value in place (object spread). -/
structure AudioSettingsPatch where
  maxConcurrentAudio : Option ℚ := none
  defaultVolume : Option ℚ := none
  fadeOutDuration : Option ℚ := none
  queueProcessingDelay : Option ℚ := none
  deriving Repr, DecidableEq

/-- `configureAudioSettings(settings)`: spread-merge the patch over the
current settings, then clamp:

    audioSettings.maxConcurrentAudio = Math.max(1, Math.min(10, ...));
    audioSettings.defaultVolume = Math.max(0, Math.min(1, ...));
    audioSettings.fadeOutDuration = Math.max(0, Math.min(5000, ...));

No clamp is applied to `queueProcessingDelay`. -/
def configureAudioSettings (cur : AudioSettings) (p : AudioSettingsPatch) :
    AudioSettings :=
  let merged : AudioSettings :=
    { maxConcurrentAudio := p.maxConcurrentAudio.getD cur.maxConcurrentAudio
      defaultVolume := p.defaultVolume.getD cur.defaultVolume
      fadeOutDuration := p.fadeOutDuration.getD cur.fadeOutDuration
      queueProcessingDelay := p.queueProcessingDelay.getD cur.queueProcessingDelay }
  { merged with
    maxConcurrentAudio := max 1 (min 10 merged.maxConcurrentAudio)
    defaultVolume := max 0 (min 1 merged.defaultVolume)
    fadeOutDuration := max 0 (min 5000 merged.fadeOutDuration) }

/-- What the code can observe of a thrown JS error: its `name`, optional
`code` property, and `message`. -/
structure JsError where
  name : String
  code : Option String
  message : String
  deriving Repr, DecidableEq

/-- The error types assigned by the outer catch of `synthesizeAndPlayAudio`. -/
inductive ErrorType
  | TIMEOUT
  | CREDENTIALS
  | NETWORK
  | RATE_LIMIT
  | PARAMETER
  | SERVICE
  | UNKNOWN
  deriving Repr, DecidableEq

/-- The classification chain of the outer catch of `synthesizeAndPlayAudio`,
in source order:

    error.message === 'API_TIMEOUT'                                  -> TIMEOUT
    error.name === 'CredentialsProviderError' || code === 'CredentialsError'
                                                                     -> CREDENTIALS
    error.name === 'NetworkingError' || code === 'NetworkingError'   -> NETWORK
    code === 'Throttling' || code === 'ThrottlingException'          -> RATE_LIMIT
    code === 'InvalidParameterValue' || code === 'ValidationException'
                                                                     -> PARAMETER
    code === 'ServiceUnavailable' || code === 'InternalFailure'      -> SERVICE
    otherwise                                                        -> UNKNOWN
-/
def classifyTtsError (e : JsError) : ErrorType :=
  if e.message = "API_TIMEOUT" then .TIMEOUT
  else if e.name = "CredentialsProviderError" ∨ e.code = some "CredentialsError" then
    .CREDENTIALS
  else if e.name = "NetworkingError" ∨ e.code = some "NetworkingError" then .NETWORK
  else if e.code = some "Throttling" ∨ e.code = some "ThrottlingException" then
    .RATE_LIMIT
  else if e.code = some "InvalidParameterValue" ∨ e.code = some "ValidationException" then
    .PARAMETER
  else if e.code = some "ServiceUnavailable" ∨ e.code = some "InternalFailure" then
    .SERVICE
  else .UNKNOWN

/-- One `reader.read()` result: a data chunk (`{done:false, value}`), the end
of the stream (`{done:true}`), or a thrown read error. -/
inductive ReadResult
  | chunk (data : List Nat)
  | streamDone
  | readErr (msg : String)

/-- How the read loop of `streamToUint8Array` exited. -/
inductive LoopExit
  | doneSeen
  | boundHit
  | errorThrown (msg : String)
  deriving Repr, DecidableEq

/-- `const maxReads = 1000` -/
def maxReads : Nat := 1000

/-- The read loop of `streamToUint8Array`: `while (readCount < maxReads)`
reads, increments `readCount`, breaks on `done`, pushes non-empty chunks,
and rethrows read errors.  `fuel` is `maxReads - readCount`; `k` is the
current `readCount` (index of the next read); `acc` the chunks so far.
Returns (chunks, final readCount, exit reason). -/
def readLoop (reads : Nat → ReadResult) :
    Nat → Nat → List (List Nat) → List (List Nat) × Nat × LoopExit
  | 0, k, acc => (acc, k, .boundHit)
  | fuel + 1, k, acc =>
    match reads k with
    | .streamDone => (acc, k + 1, .doneSeen)
    | .readErr m => (acc, k + 1, .errorThrown m)
    | .chunk d =>
      readLoop reads fuel (k + 1) (if d.length > 0 then acc ++ [d] else acc)

/-- The failures `streamToUint8Array` can raise (all thrown as exceptions in
the source and caught by the caller's stream-error handler). -/
inductive StreamFailure
  | readError (msg : String)
  | noChunks
  | zeroLength
  deriving Repr, DecidableEq

/-- The outcome of `streamToUint8Array`: either the assembled byte buffer or
a thrown failure, together with whether the
"maximum read attempts reached" warning was logged
(`if (readCount >= maxReads) console.warn(...)`). -/
structure StreamResult where
  result : Except StreamFailure (List Nat)
  warnedIncomplete : Bool
  deriving Repr

/-- The tail of `streamToUint8Array` after the read loop: a thrown read
error propagates; otherwise the incompleteness warning is logged when
`readCount >= maxReads`, a failure is thrown when no non-empty chunk was
collected or the total length is zero, and otherwise the chunks are
concatenated into the returned buffer. -/
def streamAssemble (r : List (List Nat) × Nat × LoopExit) : StreamResult :=
  match r.2.2 with
  | .errorThrown m => ⟨.error (.readError m), false⟩
  | _ =>
    let warned := decide (r.2.1 ≥ maxReads)
    if r.1 = [] then ⟨.error .noChunks, warned⟩
    else if (r.1.map List.length).sum = 0 then ⟨.error .zeroLength, warned⟩
    else ⟨.ok r.1.flatten, warned⟩

/-- `streamToUint8Array(stream)` for a present stream whose reader was
obtained: run the bounded read loop, then assemble. -/
def streamToUint8Array (reads : Nat → ReadResult) : StreamResult :=
  streamAssemble (readLoop reads maxReads 0 [])

/-- The `Text` parameter actually sent to the remote service, and whether the
truncation notice was logged:

    if (text.length > maxTextLength) { console.warn(...); text = text.substring(0, 3000); }
    ...
    Text: text.trim()
-/
def sentSynthesisText (text : List Char) : List Char × Bool :=
  if text.length > 3000 then (jsTrim (text.take 3000), true)
  else (jsTrim text, false)

/-- The part of the module state touched by one `synthesizeAndPlayAudio`
call: the client handle (`pollyClient !== null`), the circuit breaker, the
insertion-ordered active set of audio elements (by id), the elements retained
by `handleAutoplayBlocked` waiting for a user gesture, and a fresh-id
counter for newly created audio elements. -/
structure PollyState where
  clientPresent : Bool
  circuit : CircuitState
  active : List Nat
  blocked : List Nat
  nextId : Nat
  deriving Repr, DecidableEq

/-- Environment input: how the awaited remote call turned out.
`throwErr e` covers a rejected `pollyClient.send` as well as the losing race
against the 10 s timer (which rejects with `message = "API_TIMEOUT"`);
`noStream` is a fulfilled response with no `AudioStream`; `stream reads` is a
fulfilled response whose `AudioStream` yields the given read results. -/
inductive ApiOutcome
  | throwErr (e : JsError)
  | noStream
  | stream (reads : Nat → ReadResult)

/-- Environment input for the playback attempt: the page visibility at the
time `handleAutoplayOptimization` runs, and the outcomes of the first
(`play()`) and second (low-volume retry) device play calls — `none` means the
play promise fulfilled. -/
structure PlayEnv where
  pageHidden : Bool
  play1 : Option JsError
  play2 : Option JsError
  deriving Repr, DecidableEq

/-- `handleAutoplayOptimization(audioElement)`, reduced to which error (if
any) it throws to its caller:

    if (document.visibilityState === 'hidden')
      throw new Error('NotAllowedError: Page not visible');
    try { await audioElement.play(); }
    catch (error) {
      if (error.name === 'NotAllowedError') {
        ... retry at low volume ...  // rethrows the second failure
      } else throw error;
    }

Note that `new Error('NotAllowedError: Page not visible')` has name
`"Error"`: the string naming `NotAllowedError` is only its message. -/
def handleAutoplayOptimization (env : PlayEnv) : Option JsError :=
  if env.pageHidden then
    some ⟨"Error", none, "NotAllowedError: Page not visible"⟩
  else
    match env.play1 with
    | none => none
    | some e => if e.name = "NotAllowedError" then env.play2 else some e

/-- Abstraction of the log lines `synthesizeAndPlayAudio` emits; the two
`TTS_STREAM_ERROR` sites (stream processing failure, empty audio data) are
both `streamError`. -/
inductive SynthLog
  | truncationNotice
  | apiNoStream
  | streamError
  | playbackStarted
  | autoplayBlockedRecovery
  | notSupported
  | ordinaryPlayError
  | classified (t : ErrorType)
  deriving Repr, DecidableEq

/-- `synthesizeAndPlayAudio(text)`: truncate over-long text, send the
request, assemble the stream, create and admit the audio element, attempt
playback (routing autoplay-policy rejections to `handleAutoplayBlocked`,
which retains the element in the gesture-wait list), and classify any error
thrown from the request in the outer catch, recording breaker-countable
kinds via `recordTtsError` (and dropping the client on credential errors).
Stream failures are caught by the dedicated inner catch (or the empty-data
check) and return without reaching the outer classifier. -/
def synthesizeAndPlayAudio (s : PollyState) (text : List Char)
    (api : ApiOutcome) (env : PlayEnv) (now : Int) :
    PollyState × List SynthLog :=
  let sent := sentSynthesisText text
  let logs0 : List SynthLog :=
    if sent.2 then [.truncationNotice] else []
  match api with
  | .throwErr e =>
    match classifyTtsError e with
    | .PARAMETER => (s, logs0 ++ [.classified .PARAMETER])
    | .CREDENTIALS =>
      ({ s with clientPresent := false, circuit := recordTtsError s.circuit now },
        logs0 ++ [.classified .CREDENTIALS])
    | t => ({ s with circuit := recordTtsError s.circuit now },
        logs0 ++ [.classified t])
  | .noStream => (s, logs0 ++ [.apiNoStream])
  | .stream reads =>
    match (streamToUint8Array reads).result with
    | .error _ => (s, logs0 ++ [.streamError])
    | .ok bytes =>
      if bytes.length = 0 then (s, logs0 ++ [.streamError])
      else
        let id := s.nextId
        let s1 := { s with active := s.active ++ [id], nextId := id + 1 }
        match handleAutoplayOptimization env with
        | none => (s1, logs0 ++ [.playbackStarted])
        | some e =>
          let s2 := { s1 with active := s1.active.erase id }
          if e.name = "NotAllowedError" then
            ({ s2 with blocked := s2.blocked ++ [id] },
              logs0 ++ [.autoplayBlockedRecovery])
          else if e.name = "NotSupportedError" then
            (s2, logs0 ++ [.notSupported])
          else (s2, logs0 ++ [.ordinaryPlayError])

/-! ### Event-level model of the concurrency manager

`speakText` / `processAudioQueue` / the audio-element event listeners run on
the single JS task queue, but each `await` is a suspension point: the
capacity check of `speakText` (`activeAudioElements.size >=
audioSettings.maxConcurrentAudio`) happens synchronously before
`await pollyClient.send(...)`, while the `activeAudioElements.add(...)`
for the same request happens only after the response and the stream assembly
have been awaited.  We therefore model the manager as a transition system
whose events are the atomic (synchronous) segments of the source between
suspension points. -/

/-- The concurrency-relevant module state: the insertion-ordered active set,
the requests admitted past the capacity check whose synthesis is still being
awaited (not yet in the active set), the FIFO `audioQueue`, the elements
retained by `handleAutoplayBlocked`, and the (integer-valued)
`audioSettings.maxConcurrentAudio`. -/
structure MgrState where
  active : List Nat
  pending : List Nat
  queue : List Nat
  blocked : List Nat
  maxConc : Nat
  deriving Repr, DecidableEq

/-- Atomic segments of the source:
* `speakArrive r` — `speakText` runs up to its capacity decision: at capacity
  it pushes `r` onto `audioQueue`, otherwise the call proceeds into
  `synthesizeAndPlayAudio` (request in flight);
* `synthOk r` — the awaited synthesis for `r` produced a playable buffer and
  `activeAudioElements.add` runs (line following stream assembly);
* `synthFail r` — the awaited synthesis failed before any element was added;
* `playBlocked r` — the play attempt rejected with name `NotAllowedError`:
  the element is deleted from the active set and retained by
  `handleAutoplayBlocked`;
* `playFail r` — any other play rejection: deleted from the active set;
* `gestureRetryOk r` — a user gesture fires `playOnInteraction` and
  `audioElement.play()` fulfills: `activeAudioElements.add(audioElement)`
  (no capacity check in the source);
* `gestureRetryFail r` — the retry play rejects: the element is dropped;
* `ended r` — the `ended` listener deletes `r` from the active set;
* `drainOne` — one iteration of the `processAudioQueue` loop: with the queue
  non-empty and the active set under capacity, `audioQueue.shift()` pops the
  head and its synthesis is started (in flight). -/
inductive MgrEvent
  | speakArrive (r : Nat)
  | synthOk (r : Nat)
  | synthFail (r : Nat)
  | playBlocked (r : Nat)
  | playFail (r : Nat)
  | gestureRetryOk (r : Nat)
  | gestureRetryFail (r : Nat)
  | ended (r : Nat)
  | drainOne
  deriving Repr, DecidableEq

/-- One event of the transition system; `none` when the event's guard does
not hold in the given state (the event cannot occur there). -/
def step (s : MgrState) : MgrEvent → Option MgrState
  | .speakArrive r =>
    if s.active.length ≥ s.maxConc then some { s with queue := s.queue ++ [r] }
    else some { s with pending := s.pending ++ [r] }
  | .synthOk r =>
    if r ∈ s.pending then
      some { s with pending := s.pending.erase r, active := s.active ++ [r] }
    else none
  | .synthFail r =>
    if r ∈ s.pending then some { s with pending := s.pending.erase r } else none
  | .playBlocked r =>
    if r ∈ s.active then
      some { s with active := s.active.erase r, blocked := s.blocked ++ [r] }
    else none
  | .playFail r =>
    if r ∈ s.active then some { s with active := s.active.erase r } else none
  | .gestureRetryOk r =>
    if r ∈ s.blocked then
      some { s with blocked := s.blocked.erase r, active := s.active ++ [r] }
    else none
  | .gestureRetryFail r =>
    if r ∈ s.blocked then some { s with blocked := s.blocked.erase r } else none
  | .ended r =>
    if r ∈ s.active then some { s with active := s.active.erase r } else none
  | .drainOne =>
    match s.queue with
    | [] => none
    | q :: rest =>
      if s.active.length < s.maxConc then
        some { s with queue := rest, pending := s.pending ++ [q] }
      else none

/-- Run a sequence of events; `none` if any guard fails along the way. -/
def runTrace (s : MgrState) : List MgrEvent → Option MgrState
  | [] => some s
  | e :: es => (step s e).bind (fun s1 => runTrace s1 es)

/-- Side condition for the amended admission invariant: the event is not an
unchecked gesture re-admission, and admission decisions (`speakArrive`,
`drainOne`) are only taken while no admitted synthesis is still in flight
(the serialized regime the specification's indivisible admission step
describes). -/
def serializedOk (s : MgrState) : MgrEvent → Bool
  | .speakArrive _ => s.pending = []
  | .drainOne => s.pending = []
  | .gestureRetryOk _ => false
  | _ => true

/-- Run a sequence of events under the serialized, gesture-free regime. -/
def runTraceSerialized (s : MgrState) : List MgrEvent → Option MgrState
  | [] => some s
  | e :: es =>
    if serializedOk s e then (step s e).bind (fun s1 => runTraceSerialized s1 es)
    else none

/-! ## Helper lemmas -/

/-- While the breaker is tripped and the cooldown has not strictly elapsed,
`isTtsTemporarilyDisabled` reports disabled and leaves the state alone. -/
lemma disabled_within_cooldown (s : CircuitState) (t now : Int)
    (hc : MAX_ERROR_COUNT ≤ s.ttsErrorCount) (hl : s.lastErrorTime = some t)
    (ht : t ≠ 0) (hle : now - t ≤ ERROR_RESET_TIME) :
    isTtsTemporarilyDisabled s now = (true, s) := by
  unfold isTtsTemporarilyDisabled
  rw [hl]
  simp only [timeTruthy, Option.getD_some]
  rw [if_neg (by omega), if_neg (by simp [ht]; omega)]

/-- Once the breaker is tripped and the cooldown has strictly elapsed,
`isTtsTemporarilyDisabled` resets the circuit and reports enabled. -/
lemma reset_after_cooldown (s : CircuitState) (t now : Int)
    (hc : MAX_ERROR_COUNT ≤ s.ttsErrorCount) (hl : s.lastErrorTime = some t)
    (ht : t ≠ 0) (hgt : ERROR_RESET_TIME < now - t) :
    isTtsTemporarilyDisabled s now = (false, ⟨0, none⟩) := by
  unfold isTtsTemporarilyDisabled
  rw [hl]
  simp only [timeTruthy, Option.getD_some]
  rw [if_neg (by omega), if_pos (by simp [ht]; omega)]

/-! ## Claims -/

/-- C2 (counterexample). The claim says that once 5 breaker-countable
failures have accumulated, calls are admitted again (with the counter reset)
as soon as **at least** 300000 ms have elapsed since the last failure.  At
exactly 300000 ms elapsed (last failure at 1000, call at 301000) the source's
strict comparison `(now - lastErrorTime) > ERROR_RESET_TIME` is false, so the
call is still refused with the circuit open and the counter not reset. -/
theorem claim2_boundary_not_readmitted :
    (301000 : Int) - 1000 ≥ ERROR_RESET_TIME ∧
    (speakTextGate ['h', 'i'] true ⟨5, some 1000⟩ 301000).1 = SpeakGate.circuitOpen ∧
    (speakTextGate ['h', 'i'] true ⟨5, some 1000⟩ 301000).2 = ⟨5, some 1000⟩ := by
  refine ⟨by decide, ?_, ?_⟩ <;> decide

/-- C2 (amended): after the breaker has tripped (`ttsErrorCount ≥ 5`, last
failure stamped at a truthy instant `t`), every `speakText` call made while
`now - t ≤ 300000` returns without reaching the network path and leaves the
circuit untouched; once **strictly more than** 300000 ms have elapsed, a call
with valid text and an available client resets the failure count to 0 and
proceeds. -/
theorem claim2_circuit_gate (text : List Char) (client : Bool)
    (s : CircuitState) (t now : Int)
    (hc : MAX_ERROR_COUNT ≤ s.ttsErrorCount) (hl : s.lastErrorTime = some t)
    (ht : t ≠ 0) :
    (now - t ≤ ERROR_RESET_TIME →
      (speakTextGate text client s now).1 ≠ SpeakGate.proceed ∧
      (speakTextGate text client s now).2 = s) ∧
    (ERROR_RESET_TIME < now - t → (jsTrim text).length ≠ 0 → client = true →
      (speakTextGate text client s now).1 = SpeakGate.proceed ∧
      (speakTextGate text client s now).2 = ⟨0, none⟩) := by
  constructor
  · intro hle
    unfold speakTextGate
    rw [disabled_within_cooldown s t now hc hl ht hle]
    by_cases h1 : (jsTrim text).length = 0
    · simp [h1]
    · by_cases h2 : client <;> simp [h1, h2]
  · intro hgt htext hclient
    unfold speakTextGate
    rw [reset_after_cooldown s t now hc hl ht hgt]
    simp [htext, hclient]

/-- C2 (witness for the amended theorem): breaker tripped at time 1000 with
count 5; a call at 200000 (within cooldown) is refused leaving the state
alone, and a call at 400000 (strictly past cooldown) proceeds with the
counter reset. -/
theorem claim2_circuit_gate_witness :
    ((speakTextGate ['h', 'i'] true ⟨5, some 1000⟩ 200000).1 ≠ SpeakGate.proceed ∧
      (speakTextGate ['h', 'i'] true ⟨5, some 1000⟩ 200000).2 = ⟨5, some 1000⟩) ∧
    ((speakTextGate ['h', 'i'] true ⟨5, some 1000⟩ 400000).1 = SpeakGate.proceed ∧
      (speakTextGate ['h', 'i'] true ⟨5, some 1000⟩ 400000).2 = ⟨0, none⟩) :=
  ⟨(claim2_circuit_gate ['h', 'i'] true ⟨5, some 1000⟩ 1000 200000
      (by decide) rfl (by decide)).1 (by decide),
    (claim2_circuit_gate ['h', 'i'] true ⟨5, some 1000⟩ 1000 400000
      (by decide) rfl (by decide)).2 (by decide) (by decide) rfl⟩

/-- C10 (confirmed). `getTtsStatus()` is not side-effect free: with the
counter at the threshold and strictly more than the cooldown elapsed since
the (truthy) last-failure instant, merely building the status object resets
`ttsErrorCount` to 0 and clears `lastErrorTime` (through its call to
`isTtsTemporarilyDisabled`), so synthesis is re-enabled without any
`speakText` attempt. -/
theorem claim10_status_read_resets (client : Bool) (s : CircuitState)
    (t now : Int) (hc : MAX_ERROR_COUNT ≤ s.ttsErrorCount)
    (hl : s.lastErrorTime = some t) (ht : t ≠ 0)
    (hgt : ERROR_RESET_TIME < now - t) :
    (getTtsStatus client s now).2 = ⟨0, none⟩ ∧
    (isTtsTemporarilyDisabled (getTtsStatus client s now).2 now).1 = false := by
  unfold getTtsStatus
  rw [reset_after_cooldown s t now hc hl ht hgt]
  refine ⟨rfl, ?_⟩
  unfold isTtsTemporarilyDisabled
  simp [MAX_ERROR_COUNT]

/-- C10 (witness): counter 5, last failure at 1000, status read at 400000. -/
theorem claim10_status_read_resets_witness :
    (getTtsStatus true ⟨5, some 1000⟩ 400000).2 = ⟨0, none⟩ ∧
    (isTtsTemporarilyDisabled (getTtsStatus true ⟨5, some 1000⟩ 400000).2 400000).1 = false :=
  claim10_status_read_resets true ⟨5, some 1000⟩ 1000 400000
    (by decide) rfl (by decide) (by decide)

/-- C6 (counterexample). The claim says every written `AudioSettings` field
is clamped, with `queueProcessingDelay` clamped to ≥ 0.  The source clamps
only the first three fields; writing `queueProcessingDelay = -50` through
`configureAudioSettings` leaves it at -50. -/
theorem claim6_queueDelay_not_clamped :
    (configureAudioSettings defaultAudioSettings
      { queueProcessingDelay := some (-50) }).queueProcessingDelay = -50 := by
  decide

/-- C6 (amended): for every current settings record and every partial patch,
the written `maxConcurrentAudio` lands in [1,10], `defaultVolume` in [0,1]
and `fadeOutDuration` in [0,5000]; `queueProcessingDelay` is written as the
merged value with no clamp at all. -/
theorem claim6_configure_clamps (cur : AudioSettings) (p : AudioSettingsPatch) :
    1 ≤ (configureAudioSettings cur p).maxConcurrentAudio ∧
    (configureAudioSettings cur p).maxConcurrentAudio ≤ 10 ∧
    0 ≤ (configureAudioSettings cur p).defaultVolume ∧
    (configureAudioSettings cur p).defaultVolume ≤ 1 ∧
    0 ≤ (configureAudioSettings cur p).fadeOutDuration ∧
    (configureAudioSettings cur p).fadeOutDuration ≤ 5000 ∧
    (configureAudioSettings cur p).queueProcessingDelay =
      p.queueProcessingDelay.getD cur.queueProcessingDelay := by
  refine ⟨le_max_left _ _, max_le (by norm_num) (min_le_left _ _),
    le_max_left _ _, max_le (by norm_num) (min_le_left _ _),
    le_max_left _ _, max_le (by norm_num) (min_le_left _ _), rfl⟩

/-- C3 (confirmed). In `synthesizeAndPlayAudio`'s outer catch, the failure
counter is incremented and the last-failure instant stamped (i.e. the
circuit becomes `recordTtsError` of the old circuit) exactly when the
classified kind is not `PARAMETER` (the `InvalidParameterValue` /
`ValidationException` class); in particular TIMEOUT, CREDENTIALS, NETWORK,
RATE_LIMIT, SERVICE and UNKNOWN all increment it.  Stream-assembly failures
are caught by the dedicated inner handler and never touch the circuit: for
every stream the circuit after the `.stream` path equals the old circuit. -/
theorem claim3_breaker_accounting (s : PollyState) (e : JsError)
    (text : List Char) (env : PlayEnv) (now : Int) (reads : Nat → ReadResult) :
    (((synthesizeAndPlayAudio s text (ApiOutcome.throwErr e) env now).1.circuit =
        recordTtsError s.circuit now) ↔ classifyTtsError e ≠ ErrorType.PARAMETER) ∧
    (synthesizeAndPlayAudio s text (ApiOutcome.stream reads) env now).1.circuit =
      s.circuit := by
  constructor
  · unfold synthesizeAndPlayAudio
    cases hcl : classifyTtsError e <;>
        simp [hcl, recordTtsError] <;>
      · intro hco
        have h2 := congrArg CircuitState.ttsErrorCount hco
        simp at h2
  · unfold synthesizeAndPlayAudio
    rcases hres : (streamToUint8Array reads).result with f | bytes
    · simp [hres]
    · simp only [hres]
      by_cases hb : bytes.length = 0
      · simp [hb]
      · rcases hplay : handleAutoplayOptimization env with _ | err
        · simp [hb, hplay]
        · by_cases h1 : err.name = "NotAllowedError"
          · simp [hb, hplay, h1]
          · by_cases h2 : err.name = "NotSupportedError" <;>
              simp [hb, hplay, h1, h2]

/-- C3 (witness): instantiation of the accounting theorem at a throttling
error (counted: the circuit is stamped) and at a singleton stream. -/
theorem claim3_breaker_accounting_witness :
    (((synthesizeAndPlayAudio ⟨true, ⟨0, none⟩, [], [], 0⟩ ['h', 'i']
        (ApiOutcome.throwErr ⟨"Error", some "Throttling", "x"⟩) ⟨false, none, none⟩ 7).1.circuit =
        recordTtsError ⟨0, none⟩ 7) ↔
      classifyTtsError ⟨"Error", some "Throttling", "x"⟩ ≠ ErrorType.PARAMETER) ∧
    (synthesizeAndPlayAudio ⟨true, ⟨0, none⟩, [], [], 0⟩ ['h', 'i']
        (ApiOutcome.stream fun _ => ReadResult.streamDone) ⟨false, none, none⟩ 7).1.circuit =
      ⟨0, none⟩ :=
  claim3_breaker_accounting ⟨true, ⟨0, none⟩, [], [], 0⟩
    ⟨"Error", some "Throttling", "x"⟩ ['h', 'i'] ⟨false, none, none⟩ 7
    (fun _ => ReadResult.streamDone)

/-- Dropping a leading run of a whitespace-like unit: `dropWhile` jumps over
a satisfied replicate prefix. -/
lemma dropWhile_replicate_append (p : Char → Bool) (a : Char) (hp : p a = true) :
    ∀ (n : Nat) (l : List Char),
      List.dropWhile p (List.replicate n a ++ l) = List.dropWhile p l := by
  intro n
  induction n with
  | zero => intro l; simp
  | succ m ih =>
    intro l
    rw [List.replicate_succ, List.cons_append, List.dropWhile_cons_of_pos hp, ih]

/-- C5 (counterexample). The claim says exactly the first 3000 units of an
over-long text are sent.  The source truncates with `substring(0, 3000)` but
then builds the request with `Text: text.trim()`: for the 3001-unit text
`"ab" ++ 2999 spaces` the service receives `"ab"`, not the first 3000
units. -/
theorem claim5_trim_alters_sent_text :
    ('a' :: 'b' :: List.replicate 2999 ' ').length > 3000 ∧
    (sentSynthesisText ('a' :: 'b' :: List.replicate 2999 ' ')).1 = ['a', 'b'] ∧
    ('a' :: 'b' :: List.replicate 2999 ' ').take 3000 ≠ ['a', 'b'] := by
  have hlen : ('a' :: 'b' :: List.replicate 2999 ' ').length > 3000 := by
    rw [List.length_cons, List.length_cons, List.length_replicate]
    norm_num
  have htake : ('a' :: 'b' :: List.replicate 2999 ' ').take 3000
      = 'a' :: 'b' :: List.replicate 2998 ' ' := by
    rw [show (3000 : Nat) = 2998 + 1 + 1 by norm_num]
    rw [List.take_succ_cons, List.take_succ_cons, List.take_replicate]
    norm_num
  refine ⟨hlen, ?_, ?_⟩
  · unfold sentSynthesisText
    rw [if_pos hlen, htake]
    unfold jsTrim
    rw [List.dropWhile_cons_of_neg (by decide), List.reverse_cons,
      List.reverse_cons, List.reverse_replicate, List.append_assoc,
      List.singleton_append,
      dropWhile_replicate_append isJsWhitespace ' ' (by decide),
      List.dropWhile_cons_of_neg (by decide)]
    rfl
  · rw [htake]
    intro hco
    injection hco with h1 hco2
    injection hco2 with h3 hco3
    have h4 := congrArg List.length hco3
    rw [List.length_replicate] at h4
    simp at h4

/-- C5 (amended): for every `speakText` text longer than 3000 units the
request is not rejected: the `Text` parameter sent to the remote service is
the **trimmed** first 3000 units (`substring(0, 3000)` then `trim()`), and
the truncation notice is logged. -/
theorem claim5_truncation (text : List Char) (h : text.length > 3000) :
    sentSynthesisText text = (jsTrim (text.take 3000), true) := by
  unfold sentSynthesisText
  rw [if_pos h]

/-- C5 (witness): a 3001-unit text of letters is truncated to its first 3000
units (trimming removes nothing) with the notice logged. -/
theorem claim5_truncation_witness :
    (List.replicate 3001 'a').length > 3000 ∧
    sentSynthesisText (List.replicate 3001 'a') =
      (jsTrim ((List.replicate 3001 'a').take 3000), true) :=
  ⟨by rw [List.length_replicate]; norm_num,
    claim5_truncation (List.replicate 3001 'a')
      (by rw [List.length_replicate]; norm_num)⟩

/-- C7 (code bug, evaluated at the failing input).  With the page hidden at
the first playback attempt, `handleAutoplayOptimization` throws
`new Error('NotAllowedError: Page not visible')`, whose `name` is `"Error"`
(the `NotAllowedError` text is only its message).  The play-error handler
routes into the autoplay recovery path only when `playError.name ===
'NotAllowedError'`, so this pre-emptive rejection falls through to the
ordinary-playback-error branch: the element is removed from the active set,
not retained in the gesture-wait list, and no recovery listeners attach —
contradicting the documented pre-emptive-blocking behaviour. -/
theorem claim7_hiddenPage_discarded :
    handleAutoplayOptimization ⟨true, none, none⟩ =
      some ⟨"Error", none, "NotAllowedError: Page not visible"⟩ ∧
    synthesizeAndPlayAudio ⟨true, ⟨0, none⟩, [], [], 0⟩ ['h', 'i']
        (ApiOutcome.stream fun k => if k = 0 then ReadResult.chunk [7] else ReadResult.streamDone)
        ⟨true, none, none⟩ 0 =
      (⟨true, ⟨0, none⟩, [], [], 1⟩, [SynthLog.ordinaryPlayError]) := by
  constructor
  · rfl
  · decide

/-- If every read below the bound returns a chunk (the stream neither
completes nor throws), the read loop exits by the bound with `readCount`
advanced by the whole fuel. -/
lemma readLoop_allChunks (reads : Nat → ReadResult) :
    ∀ (fuel k : Nat) (acc : List (List Nat)),
      (∀ j, k ≤ j → j < k + fuel → ∃ d, reads j = ReadResult.chunk d) →
      (readLoop reads fuel k acc).2.2 = LoopExit.boundHit ∧
      (readLoop reads fuel k acc).2.1 = k + fuel := by
  intro fuel
  induction fuel with
  | zero => intro k acc _; exact ⟨rfl, rfl⟩
  | succ m ih =>
    intro k acc h
    obtain ⟨d, hd⟩ := h k (le_refl k) (by omega)
    rw [readLoop, hd]
    have := ih (k + 1) (if d.length > 0 then acc ++ [d] else acc)
      (fun j hj1 hj2 => h j (by omega) (by omega))
    exact ⟨this.1, by rw [this.2]; omega⟩

/-- The read loop only ever appends non-empty chunks to its accumulator. -/
lemma readLoop_acc_nonempty (reads : Nat → ReadResult) :
    ∀ (fuel k : Nat) (acc : List (List Nat)),
      (∀ c ∈ acc, c ≠ []) →
      ∀ c ∈ (readLoop reads fuel k acc).1, c ≠ [] := by
  intro fuel
  induction fuel with
  | zero => intro k acc hacc; exact hacc
  | succ m ih =>
    intro k acc hacc
    rw [readLoop]
    cases hr : reads k with
    | streamDone => exact hacc
    | readErr msg => exact hacc
    | chunk d =>
      apply ih
      by_cases hd : d.length > 0
      · rw [if_pos hd]
        intro c hc
        rcases List.mem_append.mp hc with h1 | h1
        · exact hacc c h1
        · rw [List.mem_singleton.mp h1]
          intro hnil
          rw [hnil] at hd
          exact absurd hd (by simp)
      · rw [if_neg hd]; exact hacc

/-- A non-empty list of non-empty chunks has a positive total length. -/
lemma totalLength_pos (l : List (List Nat)) (hne : l ≠ [])
    (hall : ∀ c ∈ l, c ≠ []) : (l.map List.length).sum ≠ 0 := by
  cases l with
  | nil => exact absurd rfl hne
  | cons c cs =>
    have hc : c ≠ [] := hall c (List.mem_cons_self c cs)
    have : 0 < c.length := List.length_pos.mpr hc
    simp only [List.map_cons, List.sum_cons]
    omega

/-- C8 (amended): when the response stream is still incomplete at the
1000-read bound (every read below the bound yields a chunk), the assembler
logs the incompleteness warning and does **not** fail with a stream error
for the bound itself: it throws `noChunks` exactly when no non-empty chunk
was collected, and otherwise returns the partially assembled buffer. -/
theorem claim8_bound_warns_keeps_buffer (reads : Nat → ReadResult)
    (h : ∀ k, k < maxReads → ∃ d, reads k = ReadResult.chunk d) :
    (streamToUint8Array reads).warnedIncomplete = true ∧
    ((streamToUint8Array reads).result = Except.error StreamFailure.noChunks ∨
      ∃ l, l ≠ [] ∧ (streamToUint8Array reads).result = Except.ok l) := by
  have hloop := readLoop_allChunks reads maxReads 0 []
    (fun j hj1 hj2 => h j (by omega))
  have hall := readLoop_acc_nonempty reads maxReads 0 [] (by simp)
  unfold streamToUint8Array streamAssemble
  rw [hloop.1, hloop.2]
  by_cases hc : (readLoop reads maxReads 0 []).1 = []
  · rw [if_pos hc]
    exact ⟨by simp, Or.inl rfl⟩
  · rw [if_neg hc, if_neg (totalLength_pos _ hc hall)]
    refine ⟨by simp, Or.inr ⟨_, ?_, rfl⟩⟩
    intro hflat
    rcases List.exists_mem_of_ne_nil _ hc with ⟨c, hcmem⟩
    exact hall c hcmem (List.flatten_eq_nil_iff.mp hflat c hcmem)

/-- C8 (witness for the amended theorem): a stream that produces the chunk
`[1]` on every read hits the bound; the assembler warns and returns a
buffer rather than failing. -/
theorem claim8_bound_warns_keeps_buffer_witness :
    (streamToUint8Array (fun _ => ReadResult.chunk [1])).warnedIncomplete = true ∧
    ((streamToUint8Array (fun _ => ReadResult.chunk [1])).result =
        Except.error StreamFailure.noChunks ∨
      ∃ l, l ≠ [] ∧ (streamToUint8Array (fun _ => ReadResult.chunk [1])).result =
        Except.ok l) :=
  claim8_bound_warns_keeps_buffer (fun _ => ReadResult.chunk [1])
    (fun k _ => ⟨[1], rfl⟩)

/-- On a fixed always-chunk stream the read loop accumulates one copy of the
chunk per unit of fuel and exits by the bound. -/
lemma readLoop_const_chunk (d : List Nat) (hd : d.length > 0) :
    ∀ (fuel k : Nat) (acc : List (List Nat)),
      readLoop (fun _ => ReadResult.chunk d) fuel k acc =
        (acc ++ List.replicate fuel d, k + fuel, LoopExit.boundHit) := by
  intro fuel
  induction fuel with
  | zero => intro k acc; simp [readLoop]
  | succ m ih =>
    intro k acc
    show readLoop (fun _ => ReadResult.chunk d) m (k + 1)
        (if d.length > 0 then acc ++ [d] else acc) =
      (acc ++ List.replicate (m + 1) d, k + (m + 1), LoopExit.boundHit)
    rw [if_pos hd, ih]
    simp only [List.replicate_succ, List.append_assoc, List.singleton_append,
      Prod.mk.injEq]
    refine ⟨trivial, by omega, trivial⟩

/-- Flattening `n` copies of a singleton chunk gives `n` bytes. -/
lemma flatten_replicate_singleton (n : Nat) (a : Nat) :
    (List.replicate n [a]).flatten = List.replicate n a := by
  induction n with
  | zero => rfl
  | succ m ih => rw [List.replicate_succ, List.flatten_cons, ih, List.replicate_succ]; rfl

/-- C8 (counterexample). The claim says that when the 1000-read bound is hit
while the stream is still incomplete the assembly fails with a `StreamError`
and yields no playable buffer.  On a stream that yields a non-empty chunk on
every read, the source logs the warning but **returns** the 1000-chunk
partial concatenation as a playable buffer — no `StreamError` is raised. -/
theorem claim8_bound_returns_buffer :
    (streamToUint8Array (fun _ => ReadResult.chunk [1])).result =
      Except.ok (List.replicate 1000 1) ∧
    (streamToUint8Array (fun _ => ReadResult.chunk [1])).warnedIncomplete = true ∧
    (List.replicate 1000 (1 : Nat)).length = 1000 := by
  have hne : List.replicate maxReads ([1] : List Nat) ≠ [] := by
    intro h
    have h2 := congrArg List.length h
    rw [List.length_replicate] at h2
    simp [maxReads] at h2
  have hsum : ((List.replicate maxReads ([1] : List Nat)).map List.length).sum ≠ 0 := by
    rw [List.map_replicate, List.sum_replicate]
    simp [maxReads]
  have hS : streamToUint8Array (fun _ => ReadResult.chunk [1]) =
      ⟨Except.ok (List.replicate 1000 1), true⟩ := by
    unfold streamToUint8Array
    rw [readLoop_const_chunk [1] (by simp) maxReads 0 []]
    unfold streamAssemble
    dsimp only
    rw [List.nil_append, if_neg hne, if_neg hsum, flatten_replicate_singleton]
    rfl
  rw [hS]
  refine ⟨rfl, rfl, List.length_replicate ..⟩

/-- If every chunk the stream yields is empty, the read loop collects
nothing beyond its starting accumulator. -/
lemma readLoop_emptyChunks (reads : Nat → ReadResult)
    (h : ∀ k d, reads k = ReadResult.chunk d → d = []) :
    ∀ (fuel k : Nat) (acc : List (List Nat)),
      (readLoop reads fuel k acc).1 = acc := by
  intro fuel
  induction fuel with
  | zero => intro k acc; rfl
  | succ m ih =>
    intro k acc
    rw [readLoop]
    cases hr : reads k with
    | streamDone => rfl
    | readErr msg => rfl
    | chunk d =>
      have hd : d = [] := h k d hr
      rw [hd]
      simpa using ih (k + 1) acc

/-- A stream whose chunks are all empty makes `streamToUint8Array` throw
(one of its `STREAM_ERROR` exceptions), never return a buffer. -/
lemma streamToUint8Array_err_of_emptyChunks (reads : Nat → ReadResult)
    (h : ∀ k d, reads k = ReadResult.chunk d → d = []) :
    ∃ f, (streamToUint8Array reads).result = Except.error f := by
  have hacc := readLoop_emptyChunks reads h maxReads 0 []
  unfold streamToUint8Array streamAssemble
  cases hexit : (readLoop reads maxReads 0 []).2.2 with
  | errorThrown m => exact ⟨.readError m, rfl⟩
  | doneSeen => rw [if_pos hacc]; exact ⟨.noChunks, rfl⟩
  | boundHit => rw [if_pos hacc]; exact ⟨.noChunks, rfl⟩

/-- C9 (confirmed). For every `speakText` call whose response stream yields
zero total bytes (every chunk read is empty), the synthesis step returns
normally — in the source the thrown `STREAM_ERROR` is caught by the inner
stream handler, which logs `TTS_STREAM_ERROR` and returns, so nothing
escapes the subsystem boundary: the module state (in particular the active
set and the circuit) is exactly the state before the call, no audio element
is created, and a stream error is logged. -/
theorem claim9_zero_bytes_graceful (s : PollyState) (text : List Char)
    (env : PlayEnv) (now : Int) (reads : Nat → ReadResult)
    (h : ∀ k d, reads k = ReadResult.chunk d → d = []) :
    (synthesizeAndPlayAudio s text (ApiOutcome.stream reads) env now).1 = s ∧
    SynthLog.streamError ∈
      (synthesizeAndPlayAudio s text (ApiOutcome.stream reads) env now).2 := by
  obtain ⟨f, hf⟩ := streamToUint8Array_err_of_emptyChunks reads h
  unfold synthesizeAndPlayAudio
  dsimp only
  rw [hf]
  exact ⟨rfl, List.mem_append.mpr (Or.inr (List.mem_singleton.mpr rfl))⟩

/-- C9 (witness): a stream that completes immediately with no chunks leaves
the starting state untouched and logs the stream error. -/
theorem claim9_zero_bytes_graceful_witness :
    (synthesizeAndPlayAudio ⟨true, ⟨0, none⟩, [], [], 0⟩ ['h', 'i']
        (ApiOutcome.stream fun _ => ReadResult.streamDone) ⟨false, none, none⟩ 0).1 =
      ⟨true, ⟨0, none⟩, [], [], 0⟩ ∧
    SynthLog.streamError ∈
      (synthesizeAndPlayAudio ⟨true, ⟨0, none⟩, [], [], 0⟩ ['h', 'i']
        (ApiOutcome.stream fun _ => ReadResult.streamDone) ⟨false, none, none⟩ 0).2 :=
  claim9_zero_bytes_graceful ⟨true, ⟨0, none⟩, [], [], 0⟩ ['h', 'i']
    ⟨false, none, none⟩ 0 (fun _ => ReadResult.streamDone)
    (fun _ d hd => nomatch hd)

/-- One serialized, gesture-free step preserves the capacity budget
`|active| + |in-flight| ≤ maxConcurrentAudio` (and never touches the
configured bound). -/
lemma step_preserves_budget (s s' : MgrState) (e : MgrEvent)
    (hok : serializedOk s e = true) (hstep : step s e = some s')
    (hinv : s.active.length + s.pending.length ≤ s.maxConc) :
    s'.active.length + s'.pending.length ≤ s'.maxConc ∧ s'.maxConc = s.maxConc := by
  cases e with
  | speakArrive r =>
    have hp : s.pending = [] := by simpa [serializedOk] using hok
    simp only [step] at hstep
    by_cases hcap : s.active.length ≥ s.maxConc
    · rw [if_pos hcap] at hstep
      cases hstep
      exact ⟨hinv, rfl⟩
    · rw [if_neg hcap] at hstep
      cases hstep
      refine ⟨?_, rfl⟩
      dsimp only
      rw [hp, List.nil_append, List.length_singleton]
      omega
  | synthOk r =>
    simp only [step] at hstep
    by_cases hm : r ∈ s.pending
    · rw [if_pos hm] at hstep
      cases hstep
      have hlen := List.length_erase_of_mem hm
      have hpos : 0 < s.pending.length := List.length_pos.mpr (List.ne_nil_of_mem hm)
      refine ⟨?_, rfl⟩
      dsimp only
      rw [List.length_append, List.length_singleton, hlen]
      omega
    · rw [if_neg hm] at hstep; cases hstep
  | synthFail r =>
    simp only [step] at hstep
    by_cases hm : r ∈ s.pending
    · rw [if_pos hm] at hstep
      cases hstep
      have hlen := List.length_erase_of_mem hm
      refine ⟨?_, rfl⟩
      dsimp only
      rw [hlen]
      omega
    · rw [if_neg hm] at hstep; cases hstep
  | playBlocked r =>
    simp only [step] at hstep
    by_cases hm : r ∈ s.active
    · rw [if_pos hm] at hstep
      cases hstep
      have hlen := List.length_erase_of_mem hm
      refine ⟨?_, rfl⟩
      dsimp only
      rw [hlen]
      omega
    · rw [if_neg hm] at hstep; cases hstep
  | playFail r =>
    simp only [step] at hstep
    by_cases hm : r ∈ s.active
    · rw [if_pos hm] at hstep
      cases hstep
      have hlen := List.length_erase_of_mem hm
      refine ⟨?_, rfl⟩
      dsimp only
      rw [hlen]
      omega
    · rw [if_neg hm] at hstep; cases hstep
  | gestureRetryOk r => simp [serializedOk] at hok
  | gestureRetryFail r =>
    simp only [step] at hstep
    by_cases hm : r ∈ s.blocked
    · rw [if_pos hm] at hstep
      cases hstep
      exact ⟨hinv, rfl⟩
    · rw [if_neg hm] at hstep; cases hstep
  | ended r =>
    simp only [step] at hstep
    by_cases hm : r ∈ s.active
    · rw [if_pos hm] at hstep
      cases hstep
      have hlen := List.length_erase_of_mem hm
      refine ⟨?_, rfl⟩
      dsimp only
      rw [hlen]
      omega
    · rw [if_neg hm] at hstep; cases hstep
  | drainOne =>
    have hp : s.pending = [] := by simpa [serializedOk] using hok
    simp only [step] at hstep
    cases hq : s.queue with
    | nil => rw [hq] at hstep; cases hstep
    | cons q rest =>
      rw [hq] at hstep
      dsimp only at hstep
      by_cases hcap : s.active.length < s.maxConc
      · rw [if_pos hcap] at hstep
        cases hstep
        refine ⟨?_, rfl⟩
        dsimp only
        rw [hp, List.nil_append, List.length_singleton]
        omega
      · rw [if_neg hcap] at hstep; cases hstep

/-- C1 (amended): in the serialized, gesture-free regime — admission
decisions taken only while no admitted synthesis is still awaiting its
response, and no autoplay-recovery gesture retry — every state reachable
from a state satisfying `|active| + |in-flight| ≤ maxConcurrentAudio`
(e.g. the idle initial state) keeps the active set within
`maxConcurrentAudio`. -/
theorem claim1_serialized_admission_bound (tr : List MgrEvent)
    (s0 s : MgrState)
    (h0 : s0.active.length + s0.pending.length ≤ s0.maxConc)
    (hrun : runTraceSerialized s0 tr = some s) :
    s.active.length ≤ s.maxConc := by
  induction tr generalizing s0 with
  | nil =>
    cases hrun
    omega
  | cons e es ih =>
    unfold runTraceSerialized at hrun
    by_cases hok : serializedOk s0 e = true
    · rw [if_pos hok] at hrun
      cases hstep : step s0 e with
      | none => rw [hstep] at hrun; cases hrun
      | some s1 =>
        rw [hstep] at hrun
        exact ih s1 (step_preserves_budget s0 s1 e hok hstep h0).1 hrun
    · rw [if_neg hok] at hrun; cases hrun

/-- C1 (witness for the amended theorem): from the idle state with
`maxConcurrentAudio = 2`, one serialized admission and its completion leave
one element active, within the bound. -/
theorem claim1_serialized_admission_bound_witness :
    runTraceSerialized ⟨[], [], [], [], 2⟩
        [MgrEvent.speakArrive 0, MgrEvent.synthOk 0] =
      some ⟨[0], [], [], [], 2⟩ ∧
    (⟨[0], [], [], [], 2⟩ : MgrState).active.length ≤
      (⟨[0], [], [], [], 2⟩ : MgrState).maxConc :=
  ⟨by decide,
    claim1_serialized_admission_bound
      [MgrEvent.speakArrive 0, MgrEvent.synthOk 0]
      ⟨[], [], [], [], 2⟩ ⟨[0], [], [], [], 2⟩ (by decide) (by decide)⟩

/-- C1 (counterexample). The claim asserts `|ActiveSet| ≤
maxConcurrentAudio` at every observable point of every `speak()` sequence,
explicitly including autoplay-recovery retries after a user gesture.  With
`maxConcurrentAudio = 1`: request 0 is admitted, its playback is rejected by
autoplay policy (element removed from the active set, retained by
`handleAutoplayBlocked`), request 1 is then admitted; the user gesture
replays element 0, whose `then`-callback adds it back to the active set with
no capacity check — two elements are active with a bound of one. -/
theorem claim1_gestureRetry_exceeds_bound :
    runTrace ⟨[], [], [], [], 1⟩
        [MgrEvent.speakArrive 0, MgrEvent.synthOk 0, MgrEvent.playBlocked 0,
          MgrEvent.speakArrive 1, MgrEvent.gestureRetryOk 0, MgrEvent.synthOk 1] =
      some ⟨[0, 1], [], [], [], 1⟩ ∧
    (⟨[0, 1], [], [], [], 1⟩ : MgrState).maxConc <
      (⟨[0, 1], [], [], [], 1⟩ : MgrState).active.length := by
  exact ⟨by decide, by decide⟩

/-- C4 (counterexample). The claim says that with `maxConcurrentAudio = 2`
and back-to-back calls `speak("A")`, `speak("B")`, `speak("C")`, the third
call is enqueued.  Back-to-back calls all run their capacity check before
any of them reaches the `activeAudioElements.add` that follows the awaited
network response and stream assembly, so each sees an empty active set: all
three are admitted directly and the queue stays empty — the third call is
never enqueued. -/
theorem claim4_backToBack_not_enqueued :
    runTrace ⟨[], [], [], [], 2⟩
        [MgrEvent.speakArrive 0, MgrEvent.speakArrive 1, MgrEvent.speakArrive 2] =
      some ⟨[], [0, 1, 2], [], [], 2⟩ := by
  decide

/-- C4 (amended): when each call's synthesis settles before the next call
arrives, the claimed behaviour holds with `maxConcurrentAudio = 2`: calls 0
and 1 are admitted to the active set, call 2 is enqueued (first conjunct);
a later call 3 queues behind it, and when call 0's audio ends the drain
admits call 2 — not call 3, which stays queued (second conjunct, strict
FIFO). -/
theorem claim4_fifo_serialized :
    runTraceSerialized ⟨[], [], [], [], 2⟩
        [MgrEvent.speakArrive 0, MgrEvent.synthOk 0, MgrEvent.speakArrive 1,
          MgrEvent.synthOk 1, MgrEvent.speakArrive 2] =
      some ⟨[0, 1], [], [2], [], 2⟩ ∧
    runTraceSerialized ⟨[], [], [], [], 2⟩
        [MgrEvent.speakArrive 0, MgrEvent.synthOk 0, MgrEvent.speakArrive 1,
          MgrEvent.synthOk 1, MgrEvent.speakArrive 2, MgrEvent.speakArrive 3,
          MgrEvent.ended 0, MgrEvent.drainOne] =
      some ⟨[1], [2], [3], [], 2⟩ := by
  exact ⟨by decide, by decide⟩

end Polly
